import Mathlib

/-
Verification of the DMS driver-monitoring core against its specification.

The development shallowly embeds the relevant code of the repository:
  - src/core/state_manager.py   (EnhancedStateManager)
  - src/analysis/engine.py      (EnhancedAnalysisEngine sync buffer,
                                 CounterBasedAnalyzer,
                                 EnhancedMultiModalAnalyzer, risk mapping)
Wall-clock times (Python time.time ()) are modelled as exact rationals;
millisecond capture timestamps as integers.  Python dicts keyed by
timestamp become association lists; collections.deque with maxlen
becomes a list with drop-oldest push.
-/

namespace DMS

/-- Driver states.  The enumeration lives in core/definitions.py, which is
not under src/; constructors modelled from the spec (section 3) and the
uses in src/core/state_manager.py. -/
inductive DriverState
  | SAFE
  | FATIGUE_LOW
  | FATIGUE_HIGH
  | DISTRACTION_NORMAL
  | DISTRACTION_DANGER
  | MULTIPLE_RISK
  | PHONE_USAGE
  | MICROSLEEP
  | EMOTIONAL_STRESS
  | PREDICTIVE_WARNING
  deriving DecidableEq, Repr

/-- Analysis events.  The enumeration lives in core/definitions.py, which
is not under src/; constructors modelled from the spec and the uses in
src/.  UNKNOWN_EVENT stands for any further member of the closed
enumeration that the state machine does not recognize. -/
inductive AnalysisEvent
  | FATIGUE_ACCUMULATION
  | ATTENTION_DECLINE
  | DISTRACTION_OBJECT_DETECTED
  | PHONE_USAGE_CONFIRMED
  | MICROSLEEP_PREDICTED
  | EMOTION_STRESS_DETECTED
  | PREDICTIVE_RISK_HIGH
  | NORMAL_BEHAVIOR
  | UNKNOWN_EVENT
  deriving DecidableEq, Repr

/-- Emotion states.  The enumeration lives in core/definitions.py, which
is not under src/; constructors modelled from the spec and the uses in
src/analysis/engine.py. -/
inductive EmotionState
  | NEUTRAL
  | FATIGUE
  | STRESS
  | ANGER
  deriving DecidableEq, Repr

/-- Risk levels (core/definitions.py, used by
EnhancedAnalysisEngine._determine_enhanced_overall_risk). -/
inductive RiskLevel
  | SAFE
  | LOW
  | MEDIUM
  | HIGH
  | CRITICAL
  deriving DecidableEq, Repr

/-- collections.deque with maxlen = cap: appending to a full deque drops
the oldest (leftmost) element. -/
def pushCap {α : Type} (cap : ℕ) (l : List α) (x : α) : List α :=
  if cap ≤ l.length then l.tail ++ [x] else l ++ [x]

/-- One entry of EnhancedStateManager.state_history
(src/core/state_manager.py, handle_event). -/
structure TransitionRecord where
  timestamp : ℚ
  from_state : DriverState
  to_state : DriverState
  trigger_event : AnalysisEvent
  deriving DecidableEq, Repr

/-- State of EnhancedStateManager (src/core/state_manager.py):
current_state, state_start_time, and state_history
(deque with maxlen 100). -/
structure EnhancedStateManager where
  current_state : DriverState
  state_start_time : ℚ
  state_history : List TransitionRecord
  deriving DecidableEq, Repr

/-- Fresh manager (EnhancedStateManager.__init__ at wall-clock time t0). -/
def initStateManager (t0 : ℚ) : EnhancedStateManager :=
  ⟨DriverState.SAFE, t0, []⟩

/-- EnhancedStateManager._determine_enhanced_new_state
(src/core/state_manager.py lines 33-61), with time.time () passed
explicitly as now. -/
def determine_enhanced_new_state (s : EnhancedStateManager)
    (event : AnalysisEvent) (now : ℚ) : DriverState :=
  let current_duration := now - s.state_start_time
  match event with
  | AnalysisEvent.PHONE_USAGE_CONFIRMED => DriverState.PHONE_USAGE
  | AnalysisEvent.MICROSLEEP_PREDICTED => DriverState.MICROSLEEP
  | AnalysisEvent.EMOTION_STRESS_DETECTED => DriverState.EMOTIONAL_STRESS
  | AnalysisEvent.PREDICTIVE_RISK_HIGH => DriverState.PREDICTIVE_WARNING
  | AnalysisEvent.FATIGUE_ACCUMULATION =>
      if s.current_state = DriverState.FATIGUE_LOW then DriverState.FATIGUE_HIGH
      else DriverState.FATIGUE_LOW
  | AnalysisEvent.ATTENTION_DECLINE =>
      if s.current_state = DriverState.DISTRACTION_NORMAL then DriverState.DISTRACTION_DANGER
      else DriverState.DISTRACTION_NORMAL
  | AnalysisEvent.DISTRACTION_OBJECT_DETECTED =>
      if s.current_state = DriverState.FATIGUE_HIGH ∨
         s.current_state = DriverState.EMOTIONAL_STRESS then DriverState.MULTIPLE_RISK
      else DriverState.DISTRACTION_DANGER
  | AnalysisEvent.NORMAL_BEHAVIOR =>
      if current_duration > 5 then DriverState.SAFE else s.current_state
  | AnalysisEvent.UNKNOWN_EVENT => s.current_state

/-- EnhancedStateManager.handle_event (src/core/state_manager.py lines
16-31): on an actual change, append a TransitionRecord to the
capacity-100 history, set the new state and reset state_start_time;
otherwise leave everything untouched. -/
def handle_event (s : EnhancedStateManager) (event : AnalysisEvent)
    (now : ℚ) : EnhancedStateManager :=
  let new_state := determine_enhanced_new_state s event now
  if new_state ≠ s.current_state then
    ⟨new_state, now,
      pushCap 100 s.state_history ⟨now, s.current_state, new_state, event⟩⟩
  else s

theorem handle_event_no_change (s : EnhancedStateManager)
    (event : AnalysisEvent) (now : ℚ)
    (h : determine_enhanced_new_state s event now = s.current_state) :
    handle_event s event now = s := by
  unfold handle_event
  simp [h]

/-- Claim C4: while the current state has been held for at most 5.0
seconds a NORMAL_BEHAVIOR event is a no-op, and an unrecognized event is
always a no-op (state, history and start timestamp unchanged, no error);
once the duration exceeds 5.0 seconds, NORMAL_BEHAVIOR from a non-SAFE
state performs exactly one transition to SAFE, appending exactly one
TransitionRecord to the capacity-100 history and resetting the
state-start timestamp; further NORMAL_BEHAVIOR events from SAFE change
nothing. -/
theorem state_hysteresis_and_frame_semantics
    (s : EnhancedStateManager) (now : ℚ) :
    (now - s.state_start_time ≤ 5 →
      handle_event s AnalysisEvent.NORMAL_BEHAVIOR now = s)
    ∧ handle_event s AnalysisEvent.UNKNOWN_EVENT now = s
    ∧ (now - s.state_start_time > 5 →
        s.current_state ≠ DriverState.SAFE →
        handle_event s AnalysisEvent.NORMAL_BEHAVIOR now =
          ⟨DriverState.SAFE, now,
            pushCap 100 s.state_history
              ⟨now, s.current_state, DriverState.SAFE,
                AnalysisEvent.NORMAL_BEHAVIOR⟩⟩)
    ∧ (s.current_state = DriverState.SAFE →
        handle_event s AnalysisEvent.NORMAL_BEHAVIOR now = s) := by
  refine ⟨?_, ?_, ?_, ?_⟩
  · intro h
    apply handle_event_no_change
    unfold determine_enhanced_new_state
    simp only []
    rw [if_neg (by linarith)]
  · apply handle_event_no_change
    rfl
  · intro hdur hne
    unfold handle_event determine_enhanced_new_state
    simp only []
    rw [if_pos hdur, if_pos (Ne.symm hne)]
  · intro hsafe
    apply handle_event_no_change
    unfold determine_enhanced_new_state
    simp only []
    split
    · exact hsafe.symm
    · rfl

/-- Witness for C4 at concrete inputs: from FATIGUE_LOW entered at time
0, NORMAL_BEHAVIOR at time 3 is a no-op, an unknown event is a no-op,
NORMAL_BEHAVIOR at time 6 transitions once to SAFE recording the
transition, and NORMAL_BEHAVIOR from the resulting SAFE state is again a
no-op. -/
theorem state_hysteresis_witness :
    handle_event ⟨DriverState.FATIGUE_LOW, 0, []⟩
        AnalysisEvent.NORMAL_BEHAVIOR 3 =
      ⟨DriverState.FATIGUE_LOW, 0, []⟩
    ∧ handle_event ⟨DriverState.FATIGUE_LOW, 0, []⟩
        AnalysisEvent.UNKNOWN_EVENT 3 =
      ⟨DriverState.FATIGUE_LOW, 0, []⟩
    ∧ handle_event ⟨DriverState.FATIGUE_LOW, 0, []⟩
        AnalysisEvent.NORMAL_BEHAVIOR 6 =
      ⟨DriverState.SAFE, 6,
        [⟨6, DriverState.FATIGUE_LOW, DriverState.SAFE,
          AnalysisEvent.NORMAL_BEHAVIOR⟩]⟩
    ∧ handle_event ⟨DriverState.SAFE, 6,
        [⟨6, DriverState.FATIGUE_LOW, DriverState.SAFE,
          AnalysisEvent.NORMAL_BEHAVIOR⟩]⟩
        AnalysisEvent.NORMAL_BEHAVIOR 20 =
      ⟨DriverState.SAFE, 6,
        [⟨6, DriverState.FATIGUE_LOW, DriverState.SAFE,
          AnalysisEvent.NORMAL_BEHAVIOR⟩]⟩ := by
  refine ⟨?_, ?_, ?_, ?_⟩
  · exact (state_hysteresis_and_frame_semantics
      ⟨DriverState.FATIGUE_LOW, 0, []⟩ 3).1 (by norm_num)
  · exact (state_hysteresis_and_frame_semantics
      ⟨DriverState.FATIGUE_LOW, 0, []⟩ 3).2.1
  · have h := (state_hysteresis_and_frame_semantics
      ⟨DriverState.FATIGUE_LOW, 0, []⟩ 6).2.2.1 (by norm_num) (by decide)
    rw [h]
    rfl
  · exact (state_hysteresis_and_frame_semantics
      ⟨DriverState.SAFE, 6,
        [⟨6, DriverState.FATIGUE_LOW, DriverState.SAFE,
          AnalysisEvent.NORMAL_BEHAVIOR⟩]⟩ 20).2.2.2 rfl

/-- Claim C5: FATIGUE_ACCUMULATION moves the state machine to
FATIGUE_HIGH exactly when the current state is FATIGUE_LOW and to
FATIGUE_LOW from every other state; ATTENTION_DECLINE moves to
DISTRACTION_DANGER exactly when the current state is DISTRACTION_NORMAL
and to DISTRACTION_NORMAL from every other state. -/
theorem toggle_transitions (s : EnhancedStateManager) (now : ℚ) :
    (handle_event s AnalysisEvent.FATIGUE_ACCUMULATION now).current_state =
      (if s.current_state = DriverState.FATIGUE_LOW then DriverState.FATIGUE_HIGH
       else DriverState.FATIGUE_LOW)
    ∧ (handle_event s AnalysisEvent.ATTENTION_DECLINE now).current_state =
      (if s.current_state = DriverState.DISTRACTION_NORMAL then DriverState.DISTRACTION_DANGER
       else DriverState.DISTRACTION_NORMAL) := by
  constructor
  · by_cases h : s.current_state = DriverState.FATIGUE_LOW
    · simp [handle_event, determine_enhanced_new_state, h]
    · simp [handle_event, determine_enhanced_new_state, h]
      split
      · next heq => exact heq.symm
      · rfl
  · by_cases h : s.current_state = DriverState.DISTRACTION_NORMAL
    · simp [handle_event, determine_enhanced_new_state, h]
    · simp [handle_event, determine_enhanced_new_state, h]
      split
      · next heq => exact heq.symm
      · rfl

/-- The four event types tracked by CounterBasedAnalyzer
(src/analysis/engine.py lines 390-396); the Python code keys them by the
strings "blinks", "yawns", "head_nods", "gaze_deviations". -/
inductive TimedEventType
  | blinks
  | yawns
  | head_nods
  | gaze_deviations
  deriving DecidableEq, Repr

/-- The deque maxlen of each event buffer
(CounterBasedAnalyzer.__init__). -/
def eventMaxlen : TimedEventType → ℕ
  | TimedEventType.blinks => 300
  | TimedEventType.yawns => 100
  | TimedEventType.head_nods => 120
  | TimedEventType.gaze_deviations => 60

/-- The counting window in seconds of each event type
(CounterBasedAnalyzer.get_event_counts). -/
def eventWindow : TimedEventType → ℚ
  | TimedEventType.blinks => 60
  | TimedEventType.yawns => 300
  | TimedEventType.head_nods => 120
  | TimedEventType.gaze_deviations => 60

/-- State of CounterBasedAnalyzer: one bounded timestamp buffer per
event type. -/
structure CounterBasedAnalyzer where
  event_buffers : TimedEventType → List ℚ

/-- CounterBasedAnalyzer.__init__: all buffers empty. -/
def initCounter : CounterBasedAnalyzer := ⟨fun _ => []⟩

/-- CounterBasedAnalyzer.add_event, with time.time () passed explicitly:
append the timestamp to the deque of that type, dropping the oldest entry
when the deque is at its maxlen. -/
def add_event (s : CounterBasedAnalyzer) (ty : TimedEventType)
    (now : ℚ) : CounterBasedAnalyzer :=
  ⟨fun ty2 =>
    if ty2 = ty then pushCap (eventMaxlen ty) (s.event_buffers ty) now
    else s.event_buffers ty2⟩

/-- A sequence of add_event calls of one type. -/
def add_events (s : CounterBasedAnalyzer) (ty : TimedEventType)
    (ts : List ℚ) : CounterBasedAnalyzer :=
  ts.foldl (fun acc t => add_event acc ty t) s

/-- CounterBasedAnalyzer.get_event_counts, one window at a time: the
number of buffered timestamps t with now - t ≤ window. -/
def countEvents (s : CounterBasedAnalyzer) (ty : TimedEventType)
    (now : ℚ) : ℕ :=
  (s.event_buffers ty).countP (fun t => decide (now - t ≤ eventWindow ty))

theorem add_events_buffers (ty : TimedEventType) (ts : List ℚ) :
    ∀ s : CounterBasedAnalyzer,
    (add_events s ty ts).event_buffers ty =
      ts.foldl (pushCap (eventMaxlen ty)) (s.event_buffers ty) := by
  induction ts with
  | nil => intro s; rfl
  | cons t rest ih =>
      intro s
      show (add_events (add_event s ty t) ty rest).event_buffers ty = _
      rw [ih]
      simp [add_event]

theorem mem_foldl_pushCap (cap : ℕ) (T : ℚ) (ops : List ℚ) :
    ∀ pre suf : List ℚ, suf.length + ops.length < cap →
    T ∈ ops.foldl (pushCap cap) (pre ++ T :: suf) := by
  induction ops with
  | nil =>
      intro pre suf _
      simp
  | cons t rest ih =>
      intro pre suf h
      show T ∈ rest.foldl (pushCap cap) (pushCap cap (pre ++ T :: suf) t)
      unfold pushCap
      by_cases hc : cap ≤ (pre ++ T :: suf).length
      · rw [if_pos hc]
        cases pre with
        | nil =>
            exfalso
            simp at hc h
            omega
        | cons p ps =>
            have : ((p :: ps ++ T :: suf).tail ++ [t]) =
                ps ++ T :: (suf ++ [t]) := by simp
            rw [this]
            apply ih
            simp at h ⊢
            omega
      · rw [if_neg hc]
        have : ((pre ++ T :: suf) ++ [t]) = pre ++ T :: (suf ++ [t]) := by
          simp
        rw [this]
        apply ih
        simp at h ⊢
        omega

theorem mem_buffers_after_add (s : CounterBasedAnalyzer)
    (ty : TimedEventType) (T : ℚ) (later : List ℚ)
    (h : later.length < eventMaxlen ty) :
    T ∈ (add_events (add_event s ty T) ty later).event_buffers ty := by
  rw [add_events_buffers]
  have hbuf : (add_event s ty T).event_buffers ty =
      (if eventMaxlen ty ≤ (s.event_buffers ty).length
       then (s.event_buffers ty).tail
       else s.event_buffers ty) ++ T :: [] := by
    simp [add_event, pushCap]
    split <;> rfl
  rw [hbuf]
  exact mem_foldl_pushCap (eventMaxlen ty) T later _ [] (by simpa using h)

/-- Claim C6 (amended): for every event type, an event added at time T
is excluded from the count for every now with now - T > window (the
count only ever counts buffered timestamps inside the window), and it is
included for every now with now - T ≤ window provided fewer than the
buffer capacity of the type (blink 300, yawn 100, head_nod 120,
gaze_deviation 60) further events of that type have been added since —
with that proviso the timestamp is still buffered and the count is
positive whenever it is in the window. -/
theorem window_monotonic_expiry (s : CounterBasedAnalyzer)
    (ty : TimedEventType) (T now : ℚ) (later : List ℚ)
    (h : later.length < eventMaxlen ty) :
    countEvents (add_events (add_event s ty T) ty later) ty now =
      (((add_events (add_event s ty T) ty later).event_buffers ty).filter
        (fun t => decide (now - t ≤ eventWindow ty))).length
    ∧ T ∈ (add_events (add_event s ty T) ty later).event_buffers ty
    ∧ (now - T ≤ eventWindow ty →
        0 < countEvents (add_events (add_event s ty T) ty later) ty now)
    ∧ (now - T > eventWindow ty →
        (((add_events (add_event s ty T) ty later).event_buffers ty).filter
          (fun t => decide (now - t ≤ eventWindow ty))).count T = 0) := by
  refine ⟨List.countP_eq_length_filter _ _, mem_buffers_after_add s ty T later h,
    ?_, ?_⟩
  · intro hin
    unfold countEvents
    rw [List.countP_pos_iff]
    exact ⟨T, mem_buffers_after_add s ty T later h, by simpa using hin⟩
  · intro hout
    rw [List.count_eq_zero]
    intro hmem
    have := List.of_mem_filter hmem
    simp at this
    linarith

/-- Witness for C6 (amended) at concrete inputs: a blink at time 0 with
no later blinks is counted at now = 50 (in window) and contributes
nothing at now = 100 (out of window). -/
theorem window_monotonic_expiry_witness :
    (List.length ([] : List ℚ) < eventMaxlen TimedEventType.blinks)
    ∧ 0 < countEvents (add_events (add_event initCounter
        TimedEventType.blinks 0) TimedEventType.blinks [])
        TimedEventType.blinks 50
    ∧ (((add_events (add_event initCounter TimedEventType.blinks 0)
        TimedEventType.blinks []).event_buffers TimedEventType.blinks).filter
        (fun t => decide ((100 : ℚ) - t ≤ eventWindow TimedEventType.blinks))).count
        0 = 0 := by
  refine ⟨by decide, ?_, ?_⟩
  · exact (window_monotonic_expiry initCounter TimedEventType.blinks 0 50 []
      (by decide)).2.2.1 (by norm_num [eventWindow])
  · exact (window_monotonic_expiry initCounter TimedEventType.blinks 0 100 []
      (by decide)).2.2.2 (by norm_num [eventWindow])

set_option maxRecDepth 100000 in
/-- Counterexample to claim C6 as stated: a gaze_deviation event added
at time T = 0 followed by 60 further gaze_deviation events at time 1
(the buffer capacity is 60) is evicted from the buffer, so at now = 2,
although now - T = 2 ≤ 60 is inside the window, it is no longer included
in the count: the count is 60 (only the 60 events at time 1) and the
timestamp 0 is not buffered at all. -/
theorem window_monotonic_expiry_counterexample :
    (2 : ℚ) - 0 ≤ eventWindow TimedEventType.gaze_deviations
    ∧ (0 : ℚ) ∉ (add_events
        (add_event initCounter TimedEventType.gaze_deviations 0)
        TimedEventType.gaze_deviations
        (List.replicate 60 1)).event_buffers TimedEventType.gaze_deviations
    ∧ countEvents (add_events
        (add_event initCounter TimedEventType.gaze_deviations 0)
        TimedEventType.gaze_deviations
        (List.replicate 60 1)) TimedEventType.gaze_deviations 2 = 60 := by
  refine ⟨by norm_num [eventWindow], by decide, by with_unfolding_all rfl⟩

/-- The face_data dict built by
EnhancedAnalysisEngine._perform_multimodal_fusion_analysis
(src/analysis/engine.py lines 210-217). -/
structure FaceData where
  available : Bool
  perclos : ℚ
  enhanced_ear : ℚ
  temporal_attention_score : ℚ
  gaze_deviation_score : ℚ
  attention_focus_score : ℚ
  deriving DecidableEq, Repr

/-- The pose_data dict (same method, lines 218-222). -/
structure PoseData where
  available : Bool
  head_nod_score : ℚ
  pose_complexity_score : ℚ
  deriving DecidableEq, Repr

/-- The hand_data dict (same method, lines 223-226). -/
structure HandData where
  available : Bool
  hands_on_wheel_confidence : ℚ
  deriving DecidableEq, Repr

/-- The object_data dict (same method, lines 227-231). -/
structure ObjectData where
  available : Bool
  distraction_score : ℚ
  phone_usage_score : ℚ
  deriving DecidableEq, Repr

/-- The emotion_data dict (same method, lines 232-239). -/
structure EmotionData where
  available : Bool
  emotion : EmotionState
  confidence : ℚ
  arousal : ℚ
  valence : ℚ
  deriving DecidableEq, Repr

/-- The self.weights dict of EnhancedMultiModalAnalyzer. -/
structure FusionWeights where
  face : ℚ
  pose : ℚ
  hand : ℚ
  object : ℚ
  emotion : ℚ
  deriving DecidableEq, Repr

/-- EnhancedMultiModalAnalyzer (src/analysis/engine.py lines 411-457):
its only state is the weights dict. -/
structure EnhancedMultiModalAnalyzer where
  weights : FusionWeights
  deriving DecidableEq, Repr

/-- EnhancedMultiModalAnalyzer.__init__:
weights face 0.35, pose 0.25, hand 0.20, object 0.10, emotion 0.10. -/
def mkEnhancedMultiModalAnalyzer : EnhancedMultiModalAnalyzer :=
  ⟨⟨0.35, 0.25, 0.20, 0.10, 0.10⟩⟩

/-- The face_drowsiness local of fuse_drowsiness_signals. -/
def face_drowsiness (fd : FaceData) : ℚ :=
  fd.perclos * 0.4 + fd.enhanced_ear * 0.3 + fd.temporal_attention_score * 0.3

/-- The pose_drowsiness local of fuse_drowsiness_signals. -/
def pose_drowsiness (pd : PoseData) : ℚ :=
  pd.head_nod_score

/-- The emotion_fatigue local of fuse_drowsiness_signals
(src/analysis/engine.py lines 425-430): the emotion confidence when the
recognized emotion is FATIGUE; otherwise 1 - arousal when arousal < 0.3,
and 0 in every further case. -/
def emotion_fatigue (ed : EmotionData) : ℚ :=
  if ed.emotion = EmotionState.FATIGUE then ed.confidence
  else if ed.arousal < 0.3 then 1 - ed.arousal
  else 0

/-- EnhancedMultiModalAnalyzer.fuse_drowsiness_signals
(src/analysis/engine.py lines 415-433): availability-gated weighted sum
divided by the total weight of the available modalities, 0 when none is
available. -/
def fuse_drowsiness_signals (a : EnhancedMultiModalAnalyzer)
    (face_data : FaceData) (pose_data : PoseData)
    (emotion_data : EmotionData) : ℚ :=
  let score :=
    (if face_data.available then face_drowsiness face_data * a.weights.face else 0)
    + (if pose_data.available then pose_drowsiness pose_data * a.weights.pose else 0)
    + (if emotion_data.available then emotion_fatigue emotion_data * a.weights.emotion else 0)
  let total_weight :=
    (if face_data.available then a.weights.face else 0)
    + (if pose_data.available then a.weights.pose else 0)
    + (if emotion_data.available then a.weights.emotion else 0)
  if total_weight > 0 then score / total_weight else 0

/-- The face_distraction local of fuse_distraction_signals. -/
def face_distraction (fd : FaceData) : ℚ :=
  max fd.gaze_deviation_score (1 - fd.attention_focus_score)

/-- The hand_distraction local of fuse_distraction_signals. -/
def hand_distraction (hd : HandData) : ℚ :=
  1 - hd.hands_on_wheel_confidence

/-- The object_distraction local of fuse_distraction_signals. -/
def object_distraction (od : ObjectData) : ℚ :=
  od.distraction_score

/-- The emotion_distraction local of fuse_distraction_signals. -/
def emotion_distraction (ed : EmotionData) : ℚ :=
  if ed.emotion = EmotionState.STRESS ∨ ed.emotion = EmotionState.ANGER
  then ed.confidence else 0

/-- EnhancedMultiModalAnalyzer.fuse_distraction_signals
(src/analysis/engine.py lines 435-457). -/
def fuse_distraction_signals (a : EnhancedMultiModalAnalyzer)
    (face_data : FaceData) (hand_data : HandData)
    (object_data : ObjectData) (emotion_data : EmotionData) : ℚ :=
  let score :=
    (if face_data.available then face_distraction face_data * a.weights.face else 0)
    + (if hand_data.available then hand_distraction hand_data * a.weights.hand else 0)
    + (if object_data.available then object_distraction object_data * a.weights.object else 0)
    + (if emotion_data.available then emotion_distraction emotion_data * a.weights.emotion else 0)
  let total_weight :=
    (if face_data.available then a.weights.face else 0)
    + (if hand_data.available then a.weights.hand else 0)
    + (if object_data.available then a.weights.object else 0)
    + (if emotion_data.available then a.weights.emotion else 0)
  if total_weight > 0 then score / total_weight else 0

/-- Claim C1: in both fusion outputs, a single available modality
contributes its raw score unweighted (any positive nominal weight
cancels), and with no modality available the fused output is 0. -/
theorem fusion_renormalization (a : EnhancedMultiModalAnalyzer)
    (fd : FaceData) (pd : PoseData) (hd : HandData) (od : ObjectData)
    (ed : EmotionData)
    (hface : 0 < a.weights.face) (hpose : 0 < a.weights.pose)
    (hhand : 0 < a.weights.hand) (hobject : 0 < a.weights.object)
    (hemotion : 0 < a.weights.emotion) :
    (fd.available = true → pd.available = false → ed.available = false →
      fuse_drowsiness_signals a fd pd ed = face_drowsiness fd)
    ∧ (fd.available = false → pd.available = true → ed.available = false →
      fuse_drowsiness_signals a fd pd ed = pose_drowsiness pd)
    ∧ (fd.available = false → pd.available = false → ed.available = true →
      fuse_drowsiness_signals a fd pd ed = emotion_fatigue ed)
    ∧ (fd.available = false → pd.available = false → ed.available = false →
      fuse_drowsiness_signals a fd pd ed = 0)
    ∧ (fd.available = true → hd.available = false → od.available = false →
      ed.available = false →
      fuse_distraction_signals a fd hd od ed = face_distraction fd)
    ∧ (fd.available = false → hd.available = true → od.available = false →
      ed.available = false →
      fuse_distraction_signals a fd hd od ed = hand_distraction hd)
    ∧ (fd.available = false → hd.available = false → od.available = true →
      ed.available = false →
      fuse_distraction_signals a fd hd od ed = object_distraction od)
    ∧ (fd.available = false → hd.available = false → od.available = false →
      ed.available = true →
      fuse_distraction_signals a fd hd od ed = emotion_distraction ed)
    ∧ (fd.available = false → hd.available = false → od.available = false →
      ed.available = false →
      fuse_distraction_signals a fd hd od ed = 0) := by
  refine ⟨?_, ?_, ?_, ?_, ?_, ?_, ?_, ?_, ?_⟩ <;>
    intros h1 h2 h3 <;>
    first
    | (intro h4
       simp only [fuse_distraction_signals, h1, h2, h3, h4, if_true, if_false,
         Bool.false_eq_true, zero_add, add_zero]
       rw [if_pos (by assumption), mul_div_cancel_right₀ _ (by positivity)])
    | (intro h4
       simp only [fuse_distraction_signals, h1, h2, h3, h4, if_true, if_false,
         Bool.false_eq_true, zero_add, add_zero]
       simp)
    | (simp only [fuse_drowsiness_signals, h1, h2, h3, if_true, if_false,
         Bool.false_eq_true, zero_add, add_zero]
       rw [if_pos (by assumption), mul_div_cancel_right₀ _ (by positivity)])
    | (simp only [fuse_drowsiness_signals, h1, h2, h3, if_true, if_false,
         Bool.false_eq_true, zero_add, add_zero]
       simp)

/-- Witness for C1 at concrete inputs: with the weights from the source, a
face-only cycle fuses to exactly the raw face drowsiness score, and a
cycle with no modality available fuses to 0. -/
theorem fusion_renormalization_witness :
    fuse_drowsiness_signals mkEnhancedMultiModalAnalyzer
      ⟨true, 0.9, 0.2, 0.1, 0.2, 0.8⟩ ⟨false, 0.3, 0⟩
      ⟨false, EmotionState.NEUTRAL, 0.9, 0.5, 0⟩ =
      face_drowsiness ⟨true, 0.9, 0.2, 0.1, 0.2, 0.8⟩
    ∧ fuse_distraction_signals mkEnhancedMultiModalAnalyzer
      ⟨false, 0.9, 0.2, 0.1, 0.2, 0.8⟩ ⟨false, 0.4⟩ ⟨false, 0.2, 0⟩
      ⟨false, EmotionState.NEUTRAL, 0.9, 0.5, 0⟩ = 0 := by
  constructor
  · exact (fusion_renormalization mkEnhancedMultiModalAnalyzer
      ⟨true, 0.9, 0.2, 0.1, 0.2, 0.8⟩ ⟨false, 0.3, 0⟩ ⟨false, 0.4⟩
      ⟨false, 0.2, 0⟩ ⟨false, EmotionState.NEUTRAL, 0.9, 0.5, 0⟩
      (by norm_num [mkEnhancedMultiModalAnalyzer])
      (by norm_num [mkEnhancedMultiModalAnalyzer])
      (by norm_num [mkEnhancedMultiModalAnalyzer])
      (by norm_num [mkEnhancedMultiModalAnalyzer])
      (by norm_num [mkEnhancedMultiModalAnalyzer])).1 rfl rfl rfl
  · exact (fusion_renormalization mkEnhancedMultiModalAnalyzer
      ⟨false, 0.9, 0.2, 0.1, 0.2, 0.8⟩ ⟨false, 0.3, 0⟩ ⟨false, 0.4⟩
      ⟨false, 0.2, 0⟩ ⟨false, EmotionState.NEUTRAL, 0.9, 0.5, 0⟩
      (by norm_num [mkEnhancedMultiModalAnalyzer])
      (by norm_num [mkEnhancedMultiModalAnalyzer])
      (by norm_num [mkEnhancedMultiModalAnalyzer])
      (by norm_num [mkEnhancedMultiModalAnalyzer])
      (by norm_num [mkEnhancedMultiModalAnalyzer])).2.2.2.2.2.2.2.2
      rfl rfl rfl rfl

/-- Counterexample to claim C9 as stated: an available non-FATIGUE
emotion with arousal 0.5 < 1.  The claim predicts the raw fatigue
contribution max (0, 1 - 0.5) = 0.5, so an emotion-only cycle would fuse
to 0.5; the code yields contribution 0 (the 1 - arousal branch fires
only when arousal < 0.3) and the emotion-only fused fatigue is 0. -/
theorem emotion_contribution_counterexample :
    fuse_drowsiness_signals mkEnhancedMultiModalAnalyzer
      ⟨false, 0, 0, 0, 0, 0⟩ ⟨false, 0, 0⟩
      ⟨true, EmotionState.NEUTRAL, 0.9, 0.5, 0⟩ = 0
    ∧ EmotionState.NEUTRAL ≠ EmotionState.FATIGUE
    ∧ (0.5 : ℚ) < 1
    ∧ max (0 : ℚ) (1 - 0.5) = 0.5
    ∧ (0 : ℚ) ≠ 0.5 := by
  refine ⟨?_, by decide, by norm_num, by norm_num, by norm_num⟩
  norm_num [fuse_drowsiness_signals, emotion_fatigue,
    mkEnhancedMultiModalAnalyzer]
  decide

/-- Claim C9 (amended): whenever the emotion modality is available, its
raw fatigue contribution (the value an emotion-only cycle fuses to)
equals the emotion confidence if the recognized emotion is FATIGUE;
otherwise it equals 1 - arousal — a positive value — when arousal < 0.3,
and it equals 0 for every non-FATIGUE emotion with arousal ≥ 0.3. -/
theorem emotion_contribution_to_fatigue (fd : FaceData) (pd : PoseData)
    (ed : EmotionData) (hf : fd.available = false)
    (hp : pd.available = false) (he : ed.available = true) :
    fuse_drowsiness_signals mkEnhancedMultiModalAnalyzer fd pd ed =
      emotion_fatigue ed
    ∧ (ed.emotion = EmotionState.FATIGUE →
        emotion_fatigue ed = ed.confidence)
    ∧ (ed.emotion ≠ EmotionState.FATIGUE → ed.arousal < 0.3 →
        emotion_fatigue ed = 1 - ed.arousal ∧ 0 < emotion_fatigue ed)
    ∧ (ed.emotion ≠ EmotionState.FATIGUE → ¬ ed.arousal < 0.3 →
        emotion_fatigue ed = 0) := by
  refine ⟨?_, ?_, ?_, ?_⟩
  · simp only [fuse_drowsiness_signals, hf, hp, he, if_true, if_false,
      Bool.false_eq_true, zero_add, add_zero]
    rw [if_pos (by norm_num [mkEnhancedMultiModalAnalyzer]),
      mul_div_cancel_right₀ _ (by norm_num [mkEnhancedMultiModalAnalyzer])]
  · intro h
    simp [emotion_fatigue, h]
  · intro h1 h2
    constructor
    · simp [emotion_fatigue, h1, h2]
    · simp only [emotion_fatigue, h1, if_false, if_pos h2]
      simp
      linarith
  · intro h1 h2
    simp [emotion_fatigue, h1, h2]

/-- Witness for C9 (amended) at concrete inputs: an available ANGER
emotion with arousal 0.1 and confidence 0.9 contributes 1 - 0.1 = 0.9 to
an emotion-only fatigue fusion. -/
theorem emotion_contribution_to_fatigue_witness :
    fuse_drowsiness_signals mkEnhancedMultiModalAnalyzer
      ⟨false, 0, 0, 0, 0, 0⟩ ⟨false, 0, 0⟩
      ⟨true, EmotionState.ANGER, 0.9, 0.1, 0⟩ =
      emotion_fatigue ⟨true, EmotionState.ANGER, 0.9, 0.1, 0⟩
    ∧ emotion_fatigue ⟨true, EmotionState.ANGER, 0.9, 0.1, 0⟩ =
      1 - (0.1 : ℚ) := by
  have h := emotion_contribution_to_fatigue ⟨false, 0, 0, 0, 0, 0⟩
    ⟨false, 0, 0⟩ ⟨true, EmotionState.ANGER, 0.9, 0.1, 0⟩ rfl rfl rfl
  exact ⟨h.1, (h.2.2.1 (by decide) (by norm_num)).1⟩

/-- The fields of AdvancedMetrics (core/definitions.py, not under src/)
that the fusion-availability gating and the risk aggregation in
src/analysis/engine.py read. -/
structure AdvancedMetrics where
  fatigue_risk_score : ℚ
  distraction_risk_score : ℚ
  predictive_risk_score : ℚ
  emotion_state : EmotionState
  emotion_confidence : ℚ
  arousal_level : ℚ
  valence_level : ℚ
  pose_complexity_score : ℚ
  head_roll : ℚ
  gaze_zone_duration : ℚ
  deriving DecidableEq, Repr

/-- The emotion_data dict built by
EnhancedAnalysisEngine._perform_multimodal_fusion_analysis
(src/analysis/engine.py lines 232-239): available iff the current
emotion confidence exceeds 0.5, the remaining fields copied from the
metrics. -/
def fusionEmotionData (m : AdvancedMetrics) : EmotionData :=
  ⟨decide (m.emotion_confidence > 0.5), m.emotion_state,
    m.emotion_confidence, m.arousal_level, m.valence_level⟩

/-- Claim C10: the fusion step marks the emotion modality available iff
the current emotion confidence exceeds 0.5; with confidence ≤ 0.5 the
emotion data contributes neither score nor weight — both fused outputs
coincide with what any unavailable emotion record would produce. -/
theorem emotion_availability_gate (a : EnhancedMultiModalAnalyzer)
    (m : AdvancedMetrics) (fd : FaceData) (pd : PoseData) (hd : HandData)
    (od : ObjectData) :
    ((fusionEmotionData m).available = true ↔ m.emotion_confidence > 0.5)
    ∧ (m.emotion_confidence ≤ 0.5 →
        ∀ ed2 : EmotionData, ed2.available = false →
          fuse_drowsiness_signals a fd pd (fusionEmotionData m) =
            fuse_drowsiness_signals a fd pd ed2
          ∧ fuse_distraction_signals a fd hd od (fusionEmotionData m) =
            fuse_distraction_signals a fd hd od ed2) := by
  constructor
  · simp [fusionEmotionData]
  · intro h ed2 h2
    have hav : (fusionEmotionData m).available = false := by
      simp [fusionEmotionData]
      linarith
    constructor
    · simp [fuse_drowsiness_signals, hav, h2]
    · simp [fuse_distraction_signals, hav, h2]

/-- Witness for C10 at concrete inputs: with emotion confidence exactly
0.5 the emotion modality is gated out and a face-only fusion is
unchanged by the emotion record. -/
theorem emotion_availability_gate_witness :
    ¬ (fusionEmotionData ⟨0, 0, 0, EmotionState.STRESS, 0.5, 0.1, 0,
        0, 0, 0⟩).available = true
    ∧ fuse_drowsiness_signals mkEnhancedMultiModalAnalyzer
        ⟨true, 0.9, 0.2, 0.1, 0.2, 0.8⟩ ⟨false, 0.3, 0⟩
        (fusionEmotionData ⟨0, 0, 0, EmotionState.STRESS, 0.5, 0.1, 0,
          0, 0, 0⟩) =
      fuse_drowsiness_signals mkEnhancedMultiModalAnalyzer
        ⟨true, 0.9, 0.2, 0.1, 0.2, 0.8⟩ ⟨false, 0.3, 0⟩
        ⟨false, EmotionState.NEUTRAL, 0, 0.5, 0⟩ := by
  have h := emotion_availability_gate mkEnhancedMultiModalAnalyzer
    ⟨0, 0, 0, EmotionState.STRESS, 0.5, 0.1, 0, 0, 0, 0⟩
    ⟨true, 0.9, 0.2, 0.1, 0.2, 0.8⟩ ⟨false, 0.3, 0⟩ ⟨false, 0.4⟩
    ⟨false, 0.2, 0⟩
  refine ⟨fun hav => ?_, (h.2 (by norm_num)
    ⟨false, EmotionState.NEUTRAL, 0, 0.5, 0⟩ rfl).1⟩
  have := h.1.mp hav
  norm_num at this

/-- The threshold mapping ending
EnhancedAnalysisEngine._determine_enhanced_overall_risk
(src/analysis/engine.py lines 357-361): first match wins, strict >
at every boundary. -/
def riskFromCombined (c : ℚ) : RiskLevel :=
  if c > 0.8 then RiskLevel.CRITICAL
  else if c > 0.6 then RiskLevel.HIGH
  else if c > 0.4 then RiskLevel.MEDIUM
  else if c > 0.2 then RiskLevel.LOW
  else RiskLevel.SAFE

/-- The combined_risk value computed by
EnhancedAnalysisEngine._determine_enhanced_overall_risk
(src/analysis/engine.py lines 347-356) before the threshold mapping. -/
def combinedRisk (m : AdvancedMetrics) : ℚ :=
  let combined0 := max m.fatigue_risk_score m.distraction_risk_score
  let predictive_weight : ℚ := 0.3
  let combined1 := combined0 * (1 - predictive_weight)
    + m.predictive_risk_score * predictive_weight
  let combined2 :=
    if m.emotion_state = EmotionState.STRESS ∧ m.emotion_confidence > 0.7
    then min 1 (combined1 + 0.2) else combined1
  let combined3 :=
    if m.pose_complexity_score > 0.7
    then min 1 (combined2 + 0.1) else combined2
  if |m.head_roll| > 25 ∧ m.gaze_zone_duration > 1
  then max combined3 0.7 else combined3

/-- EnhancedAnalysisEngine._determine_enhanced_overall_risk
(src/analysis/engine.py lines 347-361). -/
def determine_enhanced_overall_risk (m : AdvancedMetrics) : RiskLevel :=
  riskFromCombined (combinedRisk m)

/-- Claim C2: the risk-level mapping uses strict > at every boundary,
first match wins: c > 0.8 gives CRITICAL, 0.6 < c ≤ 0.8 HIGH,
0.4 < c ≤ 0.6 MEDIUM, 0.2 < c ≤ 0.4 LOW and c ≤ 0.2 SAFE; the exact
boundary values 0.2, 0.4, 0.6, 0.8 take the lower level; and the full
risk aggregation maps its combined value through exactly this
mapping. -/
theorem risk_level_mapping (c : ℚ) :
    (c > 0.8 → riskFromCombined c = RiskLevel.CRITICAL)
    ∧ (0.6 < c → c ≤ 0.8 → riskFromCombined c = RiskLevel.HIGH)
    ∧ (0.4 < c → c ≤ 0.6 → riskFromCombined c = RiskLevel.MEDIUM)
    ∧ (0.2 < c → c ≤ 0.4 → riskFromCombined c = RiskLevel.LOW)
    ∧ (c ≤ 0.2 → riskFromCombined c = RiskLevel.SAFE)
    ∧ riskFromCombined 0.2 = RiskLevel.SAFE
    ∧ riskFromCombined 0.4 = RiskLevel.LOW
    ∧ riskFromCombined 0.6 = RiskLevel.MEDIUM
    ∧ riskFromCombined 0.8 = RiskLevel.HIGH
    ∧ ∀ m : AdvancedMetrics,
        determine_enhanced_overall_risk m = riskFromCombined (combinedRisk m) := by
  refine ⟨?_, ?_, ?_, ?_, ?_, ?_, ?_, ?_, ?_, fun _ => rfl⟩
  · intro h
    rw [riskFromCombined, if_pos h]
  · intro h1 h2
    rw [riskFromCombined, if_neg (by linarith), if_pos (by linarith)]
  · intro h1 h2
    rw [riskFromCombined, if_neg (by linarith), if_neg (by linarith),
      if_pos (by linarith)]
  · intro h1 h2
    rw [riskFromCombined, if_neg (by linarith), if_neg (by linarith),
      if_neg (by linarith), if_pos (by linarith)]
  · intro h
    rw [riskFromCombined, if_neg (by linarith), if_neg (by linarith),
      if_neg (by linarith), if_neg (by linarith)]
  · norm_num [riskFromCombined]
  · norm_num [riskFromCombined]
  · norm_num [riskFromCombined]
  · norm_num [riskFromCombined]

/-- Witness for C2 at concrete inputs: the values 0.9, 0.7, 0.5, 0.3,
0.1 map to CRITICAL, HIGH, MEDIUM, LOW, SAFE respectively. -/
theorem risk_level_mapping_witness :
    riskFromCombined 0.9 = RiskLevel.CRITICAL
    ∧ riskFromCombined 0.7 = RiskLevel.HIGH
    ∧ riskFromCombined 0.5 = RiskLevel.MEDIUM
    ∧ riskFromCombined 0.3 = RiskLevel.LOW
    ∧ riskFromCombined 0.1 = RiskLevel.SAFE := by
  refine ⟨(risk_level_mapping 0.9).1 (by norm_num),
    (risk_level_mapping 0.7).2.1 (by norm_num) (by norm_num),
    (risk_level_mapping 0.5).2.2.1 (by norm_num) (by norm_num),
    (risk_level_mapping 0.3).2.2.2.1 (by norm_num) (by norm_num),
    (risk_level_mapping 0.1).2.2.2.2.1 (by norm_num)⟩

/-- One per-timestamp entry of EnhancedAnalysisEngine.result_buffer: the
dict from modality name to detector result; results are abstract payloads
modelled as ℕ. -/
structure ResultEntry where
  face : Option ℕ
  pose : Option ℕ
  hand : Option ℕ
  object : Option ℕ
  deriving DecidableEq, Repr

/-- The freshly created dict self.result_buffer[timestamp_ms] = {}. -/
def emptyResultEntry : ResultEntry := ⟨none, none, none, none⟩

/-- Python dict lookup on an association list keyed by millisecond
timestamps. -/
def alookup {α : Type} (k : ℤ) : List (ℤ × α) → Option α
  | [] => none
  | (k2, v) :: rest => if k2 = k then some v else alookup k rest

/-- Python dict assignment: overwrite in place or append. -/
def ainsert {α : Type} (k : ℤ) (v : α) : List (ℤ × α) → List (ℤ × α)
  | [] => [(k, v)]
  | (k2, v2) :: rest =>
      if k2 = k then (k2, v) :: rest else (k2, v2) :: ainsert k v rest

/-- Python dict.pop (k, None): drop the key. -/
def aerase {α : Type} (k : ℤ) (l : List (ℤ × α)) : List (ℤ × α) :=
  l.filter (fun p => decide (p.1 ≠ k))

/-- The sync-buffer state of EnhancedAnalysisEngine
(src/analysis/engine.py line 57): frame_buffer and result_buffer are
dicts keyed by timestamp_ms, processed_data_queue is a deque with
maxlen 5.  Frames are abstract values modelled as ℕ. -/
structure SyncBuffer where
  frame_buffer : List (ℤ × ℕ)
  result_buffer : List (ℤ × ResultEntry)
  processed_data_queue : List (ℕ × ResultEntry)
  deriving DecidableEq, Repr

/-- EnhancedAnalysisEngine.__init__: empty buffers and queue. -/
def initSyncBuffer : SyncBuffer := ⟨[], [], []⟩

/-- EnhancedAnalysisEngine._prune_buffers (src/analysis/engine.py lines
106-110), with int (time.time () * 1000) passed explicitly as now_ms:
every timestamp listed in frame_buffer that is older than 2000 ms is
popped from frame_buffer and from result_buffer.  The iteration is over
frame_buffer only, so a timestamp present only in result_buffer is left
alone. -/
def prune_buffers (s : SyncBuffer) (now_ms : ℤ) : SyncBuffer :=
  let stale := (s.frame_buffer.map Prod.fst).filter
    (fun ts => decide (now_ms - ts > 2000))
  ⟨s.frame_buffer.filter (fun p => decide (p.1 ∉ stale)),
   s.result_buffer.filter (fun p => decide (p.1 ∉ stale)),
   s.processed_data_queue⟩

/-- EnhancedAnalysisEngine._try_queue_results (src/analysis/engine.py
lines 94-104): when both a face and a pose entry exist for the
timestamp, pop the frame and the whole entry, append (frame, entry) to
the bounded output queue if a frame was stored, and prune; otherwise do
nothing. -/
def try_queue_results (s : SyncBuffer) (timestamp_ms now_ms : ℤ) :
    SyncBuffer :=
  match alookup timestamp_ms s.result_buffer with
  | some entry =>
      if entry.face.isSome ∧ entry.pose.isSome then
        let frame := alookup timestamp_ms s.frame_buffer
        let s1 : SyncBuffer :=
          ⟨aerase timestamp_ms s.frame_buffer,
           aerase timestamp_ms s.result_buffer,
           s.processed_data_queue⟩
        let s2 : SyncBuffer :=
          match frame with
          | some f =>
              ⟨s1.frame_buffer, s1.result_buffer,
               pushCap 5 s1.processed_data_queue (f, entry)⟩
          | none => s1
        prune_buffers s2 now_ms
      else s
  | none => s

/-- EnhancedAnalysisEngine.on_face_result (src/analysis/engine.py lines
72-76): record the face result for the timestamp and try to emit. -/
def on_face_result (s : SyncBuffer) (result : ℕ)
    (timestamp_ms now_ms : ℤ) : SyncBuffer :=
  let entry := (alookup timestamp_ms s.result_buffer).getD emptyResultEntry
  let s1 : SyncBuffer :=
    ⟨s.frame_buffer,
     ainsert timestamp_ms ⟨some result, entry.pose, entry.hand, entry.object⟩
       s.result_buffer,
     s.processed_data_queue⟩
  try_queue_results s1 timestamp_ms now_ms

/-- EnhancedAnalysisEngine.on_pose_result (lines 78-82). -/
def on_pose_result (s : SyncBuffer) (result : ℕ)
    (timestamp_ms now_ms : ℤ) : SyncBuffer :=
  let entry := (alookup timestamp_ms s.result_buffer).getD emptyResultEntry
  let s1 : SyncBuffer :=
    ⟨s.frame_buffer,
     ainsert timestamp_ms ⟨entry.face, some result, entry.hand, entry.object⟩
       s.result_buffer,
     s.processed_data_queue⟩
  try_queue_results s1 timestamp_ms now_ms

/-- EnhancedAnalysisEngine.on_hand_result (lines 84-87): record only —
no emission attempt. -/
def on_hand_result (s : SyncBuffer) (result : ℕ) (timestamp_ms : ℤ) :
    SyncBuffer :=
  let entry := (alookup timestamp_ms s.result_buffer).getD emptyResultEntry
  ⟨s.frame_buffer,
   ainsert timestamp_ms ⟨entry.face, entry.pose, some result, entry.object⟩
     s.result_buffer,
   s.processed_data_queue⟩

/-- EnhancedAnalysisEngine.on_object_result (lines 89-92): record only. -/
def on_object_result (s : SyncBuffer) (result : ℕ) (timestamp_ms : ℤ) :
    SyncBuffer :=
  let entry := (alookup timestamp_ms s.result_buffer).getD emptyResultEntry
  ⟨s.frame_buffer,
   ainsert timestamp_ms ⟨entry.face, entry.pose, entry.hand, some result⟩
     s.result_buffer,
   s.processed_data_queue⟩

/-- Modelled from the spec: the capture pipeline stores each captured
frame keyed by its capture timestamp before the detector callbacks for
that timestamp arrive.  The storing code lives in
systems/mediapipe_manager.py, which is not under src/. -/
def record_frame (s : SyncBuffer) (frame : ℕ) (timestamp_ms : ℤ) :
    SyncBuffer :=
  ⟨ainsert timestamp_ms frame s.frame_buffer, s.result_buffer,
   s.processed_data_queue⟩

theorem alookup_ainsert_self {α : Type} (k : ℤ) (v : α)
    (l : List (ℤ × α)) : alookup k (ainsert k v l) = some v := by
  induction l with
  | nil => simp [alookup, ainsert]
  | cons p rest ih =>
      by_cases h : p.1 = k
      · simp [alookup, ainsert, h]
      · simp [alookup, ainsert, h, ih]

theorem prune_buffers_queue (s : SyncBuffer) (now_ms : ℤ) :
    (prune_buffers s now_ms).processed_data_queue =
      s.processed_data_queue := rfl

/-- Claim C3: with a frame stored for the timestamp, a face (or pose)
callback emits a bundle to the output queue exactly when the other
mandatory modality is already recorded for that timestamp, the emitted
bundle carrying along whatever hand/object entries were present at that
moment; hand and object callbacks never emit, so a later hand record for
an already-emitted (or pruned) timestamp has no effect on any emitted
bundle. -/
theorem sync_buffer_emission (s : SyncBuffer) (r f : ℕ) (ts now : ℤ)
    (hframe : alookup ts s.frame_buffer = some f) :
    (∀ entry : ResultEntry, alookup ts s.result_buffer = some entry →
      entry.pose.isSome = true →
      (on_face_result s r ts now).processed_data_queue =
        pushCap 5 s.processed_data_queue
          (f, ⟨some r, entry.pose, entry.hand, entry.object⟩))
    ∧ (∀ entry : ResultEntry, alookup ts s.result_buffer = some entry →
      entry.pose.isSome = false →
      (on_face_result s r ts now).processed_data_queue =
        s.processed_data_queue)
    ∧ (alookup ts s.result_buffer = none →
      (on_face_result s r ts now).processed_data_queue =
        s.processed_data_queue)
    ∧ (∀ entry : ResultEntry, alookup ts s.result_buffer = some entry →
      entry.face.isSome = true →
      (on_pose_result s r ts now).processed_data_queue =
        pushCap 5 s.processed_data_queue
          (f, ⟨entry.face, some r, entry.hand, entry.object⟩))
    ∧ (∀ entry : ResultEntry, alookup ts s.result_buffer = some entry →
      entry.face.isSome = false →
      (on_pose_result s r ts now).processed_data_queue =
        s.processed_data_queue)
    ∧ (alookup ts s.result_buffer = none →
      (on_pose_result s r ts now).processed_data_queue =
        s.processed_data_queue)
    ∧ (∀ (s2 : SyncBuffer) (r2 : ℕ) (ts2 : ℤ),
      (on_hand_result s2 r2 ts2).processed_data_queue =
        s2.processed_data_queue)
    ∧ (∀ (s2 : SyncBuffer) (r2 : ℕ) (ts2 : ℤ),
      (on_object_result s2 r2 ts2).processed_data_queue =
        s2.processed_data_queue) := by
  refine ⟨?_, ?_, ?_, ?_, ?_, ?_, fun _ _ _ => rfl, fun _ _ _ => rfl⟩
  · intro entry hentry hpose
    simp [on_face_result, try_queue_results, hentry, alookup_ainsert_self,
      hframe, hpose, prune_buffers]
  · intro entry hentry hpose
    simp [on_face_result, try_queue_results, hentry, alookup_ainsert_self,
      hpose]
  · intro hnone
    simp [on_face_result, try_queue_results, hnone, alookup_ainsert_self,
      emptyResultEntry]
  · intro entry hentry hface
    simp [on_pose_result, try_queue_results, hentry, alookup_ainsert_self,
      hframe, hface, prune_buffers]
  · intro entry hentry hface
    simp [on_pose_result, try_queue_results, hentry, alookup_ainsert_self,
      hface]
  · intro hnone
    simp [on_pose_result, try_queue_results, hnone, alookup_ainsert_self,
      emptyResultEntry]

/-- Witness for C3 at concrete inputs: frame 5 recorded at timestamp
1000; a pose callback alone emits nothing; the face callback then emits
exactly one bundle containing face and pose, hand and object absent; a
later hand record for timestamp 1000 leaves the emitted queue
untouched. -/
theorem sync_buffer_emission_witness :
    (on_pose_result (record_frame initSyncBuffer 5 1000) 21 1000
      1000).processed_data_queue = []
    ∧ (on_face_result (on_pose_result (record_frame initSyncBuffer 5 1000)
        21 1000 1000) 22 1000 1500).processed_data_queue =
      [(5, ⟨some 22, some 21, none, none⟩)]
    ∧ (on_hand_result (on_face_result (on_pose_result
        (record_frame initSyncBuffer 5 1000) 21 1000 1000) 22 1000 1500)
        33 1000).processed_data_queue =
      (on_face_result (on_pose_result (record_frame initSyncBuffer 5 1000)
        21 1000 1000) 22 1000 1500).processed_data_queue := by
  refine ⟨?_, ?_, ?_⟩
  · exact (sync_buffer_emission (record_frame initSyncBuffer 5 1000) 21 5
      1000 1000 rfl).2.2.2.2.2.1 rfl
  · have h := (sync_buffer_emission (on_pose_result
      (record_frame initSyncBuffer 5 1000) 21 1000 1000) 22 5 1000 1500
      rfl).1 ⟨none, some 21, none, none⟩ rfl rfl
    exact h.trans rfl
  · exact (sync_buffer_emission (record_frame initSyncBuffer 5 1000) 21 5
      1000 1000 rfl).2.2.2.2.2.2.1 _ 33 1000

/-- Claim C8 is violated by the code: a hand result recorded at
timestamp 1000 into an otherwise empty engine leaves a pending
result_buffer entry with no stored frame, and prune at now = 3300 ms —
when the entry is 2300 ms > 2000 ms old — changes nothing, because
_prune_buffers iterates only over frame_buffer keys.  The spec requires
prune to remove every pending entry older than the 2000 ms horizon. -/
theorem prune_buffers_misses_result_only_entry :
    (on_hand_result initSyncBuffer 7 1000).frame_buffer = []
    ∧ alookup 1000 (on_hand_result initSyncBuffer 7 1000).result_buffer =
        some ⟨none, none, some 7, none⟩
    ∧ (3300 : ℤ) - 1000 > 2000
    ∧ prune_buffers (on_hand_result initSyncBuffer 7 1000) 3300 =
        on_hand_result initSyncBuffer 7 1000
    ∧ alookup 1000 (prune_buffers (on_hand_result initSyncBuffer 7 1000)
        3300).result_buffer = some ⟨none, none, some 7, none⟩ := by
  refine ⟨rfl, rfl, by decide, by decide, rfl⟩

/-- Modelled from the spec: the cache behind
EnhancedAnalysisEngine._cached_identify_driver (src/analysis/engine.py
lines 144-147) is cachetools.TTLCache (maxsize 5, ttl 300 s) applied by
the @cached decorator; the cache implementation is the external
cachetools library, not under src/.  Entries are kept oldest first as
(key, value, insertion time); keys are abstract landmark fingerprints
modelled as ℤ, values abstract identification results modelled as ℕ. -/
structure IdentityCache where
  entries : List (ℤ × ℕ × ℚ)
  deriving DecidableEq, Repr

/-- The empty cache. -/
def initIdentityCache : IdentityCache := ⟨[]⟩

/-- Find the value and insertion time stored for a key. -/
def cacheLookup (k : ℤ) : List (ℤ × ℕ × ℚ) → Option (ℕ × ℚ)
  | [] => none
  | (k2, v, t) :: rest => if k2 = k then some (v, t) else cacheLookup k rest

/-- Append the new entry, evicting the oldest entry when the capacity
5 is exceeded. -/
def cappedAppend (l : List (ℤ × ℕ × ℚ)) (x : ℤ × ℕ × ℚ) :
    List (ℤ × ℕ × ℚ) :=
  if 5 < (l ++ [x]).length then (l ++ [x]).tail else l ++ [x]

/-- Modelled from the spec: insert a fresh entry for the key (replacing
any stale entry for the same key), evicting the oldest entry when the
capacity 5 is exceeded. -/
def cacheInsert (c : IdentityCache) (k : ℤ) (v : ℕ) (now : ℚ) :
    IdentityCache :=
  ⟨cappedAppend (c.entries.filter (fun e => decide (e.1 ≠ k))) (k, v, now)⟩

/-- Modelled from the spec: get_or_compute returns the cached value when
an entry for the key exists with age ≤ 300 s, without running the
computation; otherwise it runs the computation and inserts the result.
The Bool records whether the computation ran. -/
def get_or_compute (c : IdentityCache) (k : ℤ) (f : ℤ → ℕ) (now : ℚ) :
    ℕ × IdentityCache × Bool :=
  match cacheLookup k c.entries with
  | some (v, tIns) =>
      if now - tIns ≤ 300 then (v, c, false)
      else (f k, cacheInsert c k (f k) now, true)
  | none => (f k, cacheInsert c k (f k) now, true)

theorem cacheLookup_append_last (k : ℤ) (v : ℕ) (t : ℚ)
    (l : List (ℤ × ℕ × ℚ)) (h : ∀ e ∈ l, e.1 ≠ k) :
    cacheLookup k (l ++ [(k, v, t)]) = some (v, t) := by
  induction l with
  | nil => simp [cacheLookup]
  | cons e rest ih =>
      have he : e.1 ≠ k := h e (by simp)
      obtain ⟨k2, v2, t2⟩ := e
      simp only [List.cons_append, cacheLookup]
      rw [if_neg he]
      exact ih (fun e2 he2 => h e2 (by simp [he2]))

theorem cacheLookup_cappedAppend (k : ℤ) (v : ℕ) (t : ℚ)
    (l : List (ℤ × ℕ × ℚ)) (h : ∀ e ∈ l, e.1 ≠ k) :
    cacheLookup k (cappedAppend l (k, v, t)) = some (v, t) := by
  unfold cappedAppend
  split
  · next hlong =>
      cases l with
      | nil => simp at hlong
      | cons e rest =>
          simp only [List.cons_append, List.tail_cons]
          exact cacheLookup_append_last k v t rest
            (fun e2 he2 => h e2 (List.mem_cons_of_mem e he2))
  · exact cacheLookup_append_last k v t l h

theorem cappedAppend_length_le (l : List (ℤ × ℕ × ℚ)) (x : ℤ × ℕ × ℚ)
    (h : l.length ≤ 5) : (cappedAppend l x).length ≤ 5 := by
  unfold cappedAppend
  split
  · next hlong =>
      simp only [List.length_tail, List.length_append, List.length_cons,
        List.length_nil] at hlong ⊢
      omega
  · next hshort =>
      simp only [List.length_append, List.length_cons,
        List.length_nil] at hshort ⊢
      omega

theorem cappedAppend_full (l : List (ℤ × ℕ × ℚ)) (x : ℤ × ℕ × ℚ)
    (h : l.length = 5) : cappedAppend l x = l.tail ++ [x] := by
  unfold cappedAppend
  rw [if_pos (by simp [h])]
  cases l with
  | nil => simp at h
  | cons e rest => simp

theorem cacheLookup_cacheInsert_self (c : IdentityCache) (k : ℤ) (v : ℕ)
    (now : ℚ) :
    cacheLookup k (cacheInsert c k v now).entries = some (v, now) := by
  unfold cacheInsert
  apply cacheLookup_cappedAppend
  intro e he
  have := List.of_mem_filter he
  simpa using this

theorem cacheLookup_eq_none_forall (k : ℤ) (l : List (ℤ × ℕ × ℚ))
    (h : cacheLookup k l = none) : ∀ e ∈ l, e.1 ≠ k := by
  induction l with
  | nil => simp
  | cons e rest ih =>
      obtain ⟨k2, v2, t2⟩ := e
      unfold cacheLookup at h
      by_cases hk : k2 = k
      · rw [if_pos hk] at h
        exact absurd h (by simp)
      · rw [if_neg hk] at h
        intro e2 he2
        rcases List.mem_cons.mp he2 with h1 | h1
        · rw [h1]
          exact hk
        · exact ih h e2 h1

theorem cacheInsert_fresh (c : IdentityCache) (k : ℤ) (v : ℕ) (now : ℚ)
    (hnone : cacheLookup k c.entries = none) :
    cacheInsert c k v now = ⟨cappedAppend c.entries (k, v, now)⟩ := by
  unfold cacheInsert
  have hkeep : c.entries.filter (fun e => decide (e.1 ≠ k)) = c.entries := by
    apply List.filter_eq_self.mpr
    intro e he
    simpa using cacheLookup_eq_none_forall k c.entries hnone e he
  rw [hkeep]

/-- Claim C7: from a cache without the key, the first get_or_compute
runs the computation and returns its value; a second lookup of the same
key within 300 s of that insertion runs nothing and returns the
identical cached value and cache (the computation runs exactly once); a
lookup more than 300 s after the insertion re-runs the computation; the
cache never grows beyond 5 entries, and inserting a fresh key into a
full cache evicts exactly the oldest entry. -/
theorem identity_cache_memoization (c : IdentityCache) (k : ℤ)
    (f : ℤ → ℕ) (t1 t2 : ℚ)
    (hmiss : cacheLookup k c.entries = none) :
    (get_or_compute c k f t1).2.2 = true
    ∧ (get_or_compute c k f t1).1 = f k
    ∧ (t2 - t1 ≤ 300 →
        get_or_compute (get_or_compute c k f t1).2.1 k f t2 =
          (f k, (get_or_compute c k f t1).2.1, false))
    ∧ (t2 - t1 > 300 →
        (get_or_compute (get_or_compute c k f t1).2.1 k f t2).2.2 = true)
    ∧ (∀ (c2 : IdentityCache) (k2 : ℤ) (now2 : ℚ),
        c2.entries.length ≤ 5 →
        (get_or_compute c2 k2 f now2).2.1.entries.length ≤ 5)
    ∧ (∀ (c2 : IdentityCache) (k2 : ℤ) (now2 : ℚ),
        cacheLookup k2 c2.entries = none → c2.entries.length = 5 →
        (get_or_compute c2 k2 f now2).2.1.entries =
          c2.entries.tail ++ [(k2, f k2, now2)]) := by
  have hfirst : get_or_compute c k f t1 =
      (f k, cacheInsert c k (f k) t1, true) := by
    unfold get_or_compute
    rw [hmiss]
  refine ⟨by rw [hfirst], by rw [hfirst], ?_, ?_, ?_, ?_⟩
  · intro hin
    rw [hfirst]
    simp [get_or_compute, cacheLookup_cacheInsert_self, hin]
  · intro hout
    rw [hfirst]
    simp [get_or_compute, cacheLookup_cacheInsert_self,
      show ¬ (t2 - t1 ≤ 300) from by linarith]
  · intro c2 k2 now2 hlen
    cases hl : cacheLookup k2 c2.entries with
    | some p =>
        obtain ⟨v, tIns⟩ := p
        by_cases hage : now2 - tIns ≤ 300
        · simpa [get_or_compute, hl, hage] using hlen
        · simp only [get_or_compute, hl, hage, if_false, cacheInsert]
          exact cappedAppend_length_le _ _
            (le_trans (List.length_filter_le _ _) hlen)
    | none =>
        simp only [get_or_compute, hl, cacheInsert]
        exact cappedAppend_length_le _ _
          (le_trans (List.length_filter_le _ _) hlen)
  · intro c2 k2 now2 hnone hfull
    simp only [get_or_compute, hnone]
    rw [cacheInsert_fresh c2 k2 (f k2) now2 hnone]
    exact cappedAppend_full _ _ hfull

/-- Witness for C7 at concrete inputs: on the empty cache with key 1 and
the computation returning 42, the first call computes 42, a second call
at 100 s (within ttl) returns the cached 42 without computing, and a
third call at 301 s re-computes. -/
theorem identity_cache_memoization_witness :
    (get_or_compute initIdentityCache 1 (fun _ => 42) 0).2.2 = true
    ∧ (get_or_compute initIdentityCache 1 (fun _ => 42) 0).1 = 42
    ∧ get_or_compute
        (get_or_compute initIdentityCache 1 (fun _ => 42) 0).2.1 1
        (fun _ => 42) 100 =
      (42, (get_or_compute initIdentityCache 1 (fun _ => 42) 0).2.1, false)
    ∧ (get_or_compute
        (get_or_compute initIdentityCache 1 (fun _ => 42) 0).2.1 1
        (fun _ => 42) 301).2.2 = true := by
  have h := identity_cache_memoization initIdentityCache 1 (fun _ => 42)
    0 100 rfl
  have h2 := identity_cache_memoization initIdentityCache 1 (fun _ => 42)
    0 301 rfl
  exact ⟨h.1, h.2.1, h.2.2.1 (by norm_num), h2.2.2.2.1 (by norm_num)⟩

end DMS
